import Mathlib

/-!
Verification of the JettOX diagnostics collector (src/main.py) against its
natural-language specification.

The Python program is shallowly embedded: pure parsing helpers become Lean
functions on strings (modelled at the character-list level so that everything
reduces by kernel computation), external effects (subprocess execution, the
csv library, psutil, the filesystem) are modelled by an explicit environment
record `Env`, and code that can raise a Python exception is embedded in
`Except String`.  Machine floats (`time.perf_counter` differences) are
abstracted as rationals supplied by the environment, since no claim depends
on float rounding.
-/

/-! ## Python string helpers (character-level, so they compute by `rfl`) -/

/-- Python whitespace test for `str.strip` / `str.split()` (ASCII whitespace;
the rarely-relevant extra unicode space characters Python also strips never
occur in this program's data). -/
def isPyWs (c : Char) : Bool :=
  c = ' ' || c = '\t' || c = '\n' || c = '\r' || c = '\x0b' || c = '\x0c'

/-- Test whether the first list is an initial segment of the second. -/
def isPre : List Char → List Char → Bool
  | [], _ => true
  | _ :: _, [] => false
  | c :: cs, d :: ds => c = d && isPre cs ds

/-- Substring test on character lists (Python `needle in hay`). -/
def isSubList : List Char → List Char → Bool
  | needle, [] => needle.isEmpty
  | needle, _ :: t => isPre needle (needle.headD ' ' :: t) || isSubList needle t

/-- Python `needle in hay` on strings. -/
def pyIn (needle hay : String) : Bool :=
  isSubList needle.data hay.data

/-- Python `hay.count(needle)` for a non-empty needle: non-overlapping
occurrences scanned left to right (the empty-needle corner case of Python,
which returns `len + 1`, never arises in this program). -/
def countSub (needle : List Char) : List Char → Nat
  | [] => 0
  | c :: t =>
    if isPre needle (c :: t) then 1 + countSub needle ((c :: t).drop (max 1 needle.length))
    else countSub needle t
termination_by l => l.length
decreasing_by
  all_goals simp [List.length_drop]

/-- Python `hay.count(needle)` on strings. -/
def pyCount (needle hay : String) : Nat :=
  countSub needle.data hay.data

/-- Helper for `pySplitlines`. -/
def splitlinesAux : List Char → List Char → List String
  | [], acc => if acc.isEmpty then [] else [String.mk acc.reverse]
  | c :: rest, acc =>
    if c = '\n' then String.mk acc.reverse :: splitlinesAux rest []
    else splitlinesAux rest (c :: acc)

/-- Python `str.splitlines()` for newline-separated text (the subprocess
streams are opened in text mode, so `\r\n` has already been normalised to
`\n`): split on `\n`, with no trailing empty line for a trailing newline. -/
def pySplitlines (s : String) : List String :=
  splitlinesAux s.data []

/-- Helper for `pySplitOnce`. -/
def splitOnceAux (sep : List Char) : List Char → List Char → List Char × List Char
  | [], acc => (acc.reverse, [])
  | c :: rest, acc =>
    if isPre sep (c :: rest) then (acc.reverse, (c :: rest).drop sep.length)
    else splitOnceAux sep rest (c :: acc)

/-- Python `s.split(sep, 1)` for a non-empty separator occurring in `s`
(the two call sites guard with a `pyIn` test first): the text before the
first occurrence and the text after it. -/
def pySplitOnce (sep s : String) : String × String :=
  let p := splitOnceAux sep.data s.data []
  (String.mk p.1, String.mk p.2)

/-- Python `str.strip()`. -/
def pyStrip (s : String) : String :=
  String.mk (((s.data.dropWhile isPyWs).reverse.dropWhile isPyWs).reverse)

/-- Helper for `pySplitWs`. -/
def pySplitWsAux : List Char → List Char → List String
  | [], acc => if acc.isEmpty then [] else [String.mk acc.reverse]
  | c :: rest, acc =>
    if isPyWs c then
      if acc.isEmpty then pySplitWsAux rest []
      else String.mk acc.reverse :: pySplitWsAux rest []
    else pySplitWsAux rest (c :: acc)

/-- Python `str.split()` with no argument: split on whitespace runs, never
producing empty fields. -/
def pySplitWs (s : String) : List String :=
  pySplitWsAux s.data []

/-- Helper for `pySplitChar`. -/
def splitAllAux (sep : Char) : List Char → List Char → List String
  | [], acc => [String.mk acc.reverse]
  | c :: rest, acc =>
    if c = sep then String.mk acc.reverse :: splitAllAux sep rest []
    else splitAllAux sep rest (c :: acc)

/-- Python `s.split(sep)` for a one-character separator. -/
def pySplitChar (sep : Char) (s : String) : List String :=
  splitAllAux sep s.data []

/-- `cmd.split("_")[1]` from `collect_hardware`; every name in that loop's
constant list contains an underscore, so the Python `[1]` never raises and
the default is unreachable. -/
def underscoreSecond (s : String) : String :=
  ((pySplitChar '_' s).drop 1).headD ""

/-! ## The dynamic JSON-like value type and Python dict operations -/

/-- Values stored in the dynamically typed summary dictionaries. -/
inductive Value where
  | str : String → Value
  | int : Int → Value
  | num : ℚ → Value
  | bool : Bool → Value
  | list : List Value → Value
  | obj : List (String × Value) → Value

/-- A summary dictionary: insertion-ordered association list with unique
keys, exactly the observable behaviour of a Python `dict`. -/
abbrev Summary := List (String × Value)

/-- Python `d[k] = v` on an association list with unique keys: overwrite in
place if the key exists, else append. -/
def setKeyG {α : Type} : List (String × α) → String → α → List (String × α)
  | [], k, v => [(k, v)]
  | p :: t, k, v => if p.1 = k then (k, v) :: t else p :: setKeyG t k v

/-- Python `d.get(k)` / `k in d` lookup. -/
def lookupG {α : Type} : List (String × α) → String → Option α
  | [], _ => none
  | p :: t, k => if p.1 = k then some p.2 else lookupG t k

/-- Python `dict(pairs)`: insert the pairs left to right (later duplicates
overwrite, first-insertion order kept). -/
def pyDict {α : Type} (l : List (String × α)) : List (String × α) :=
  l.foldl (fun d p => setKeyG d p.1 p.2) []

/-- Wrap a string-to-string mapping as a summary value. -/
def strMapToValue (m : List (String × String)) : Value :=
  Value.obj (m.map fun p => (p.1, Value.str p.2))

/-! ## Command runner -/

/-- Result of one external command execution (`run` in main.py). -/
structure CommandResult where
  rc : Int
  out : String
  err : String

/-- Behaviour of the host when one command line is executed: normal
completion with an exit status and captured streams (on a POSIX host the
shell's status can be negative, e.g. `-1` when it is killed by `SIGHUP`),
a timeout (`captured` is the output gathered before the timeout, `none`
when nothing was captured), or a runner-level exception with the
exception's description. -/
inductive ExecOutcome where
  | completed (rc : Int) (stdout stderr : String)
  | timedOut (captured : Option String)
  | failed (msg : String)

/-- `str(subprocess.TimeoutExpired(cmd, t))`. -/
def timeoutMessage (cmd : String) (t : Nat) : String :=
  "Command \x27" ++ cmd ++ "\x27 timed out after " ++ toString t ++ " seconds"

/-- `run(cmd, timeout)` from main.py, as a function of the host's behaviour:
normal completion is passed through verbatim; a timeout yields `rc = -1`,
the partial output (`e.stdout or ""`), and a synthetic TIMEOUT message; any
other exception yields `rc = -1`, empty output, and the description. -/
def run (cmd : String) (t : Nat) (o : ExecOutcome) : CommandResult :=
  match o with
  | .completed rc out err => { rc := rc, out := out, err := err }
  | .timedOut captured =>
      { rc := -1, out := captured.getD "", err := "TIMEOUT: " ++ timeoutMessage cmd t }
  | .failed msg => { rc := -1, out := "", err := msg }

/-! ## Environment: external collaborators of the core -/

/-- The external world consumed by one run: the outcome of each command
line, the csv library (`list(csv.reader(text.splitlines()))`, which may
raise), the `dxdiag_output.txt` side file (whether a stale copy exists
before the dxdiag command and the outcome of `os.remove` on it — the
removal is unguarded in the source and its OSError carries an
environment-dependent description; existence after the dxdiag command ran;
and the result of reading it), the optional psutil collaborator (the
fields its hardware-metrics block manages to assign, a flag for a failure
partway through that block, and the outcome of the storage partition
sampling), the presence of smartctl on PATH, and the writability of each
artifact location. -/
structure Env where
  exec : String → Nat → ExecOutcome
  csvReader : String → Except Unit (List (List String))
  dxStaleExists : Bool
  dxRemove : Except String Unit
  dxExists : Bool
  dxRead : Except Unit String
  psutilAvailable : Bool
  hwMetricsFields : List (String × Value)
  hwMetricsFailed : Bool
  partitionsSample : Except Unit Value
  smartctlPresent : Bool
  writeOk : String → Bool
  logWriteOk : Bool
  root : String

/-- Execute a command line through the environment. -/
def runEnv (env : Env) (cmd : String) (t : Nat) : CommandResult :=
  run cmd t (env.exec cmd t)

/-! ## The static command catalogue -/

/-- The `COMMANDS` dictionary of main.py (literal command lines). -/
def COMMANDS : String → String
  | "systeminfo" => "systeminfo"
  | "wmic_cpu" => "wmic cpu get /format:list"
  | "wmic_bios" => "wmic bios get /format:list"
  | "wmic_baseboard" => "wmic baseboard get /format:list"
  | "wmic_diskdrive" => "wmic diskdrive get /format:list"
  | "wmic_video" => "wmic path win32_VideoController get /format:list"
  | "driverquery" => "driverquery /v /fo list"
  | "tasklist_csv" => "tasklist /V /FO CSV"
  | "get_pnp_device" => "powershell -Command \"Get-PnpDevice -PresentOnly | Format-List -Force\""
  | "get_physicaldisk" => "powershell -Command \"Get-PhysicalDisk | Format-List *\""
  | "get_partition" => "powershell -Command \"Get-Partition | Format-List *\""
  | "get_netadapter" => "powershell -Command \"Get-NetAdapter | Format-List *\""
  | "wevtutil_system" => "wevtutil qe System /c:200 /f:text"
  | "wevtutil_app" => "wevtutil qe Application /c:200 /f:text"
  | "dxdiag" => "dxdiag /t dxdiag_output.txt"
  | "powercfg_query" => "powercfg /q"
  | "bcdedit" => "bcdedit /enum all"
  | "wmic_logicaldevice" => "wmic path CIM_LogicalDevice get /format:list"
  | "wmic_service" => "wmic service get /format:list"
  | _ => ""

/-- The key set of the `COMMANDS` dictionary (for Python `name in COMMANDS`
membership tests). -/
def COMMANDS_keys : List String :=
  ["systeminfo", "wmic_cpu", "wmic_bios", "wmic_baseboard", "wmic_diskdrive",
   "wmic_video", "driverquery", "tasklist_csv", "get_pnp_device",
   "get_physicaldisk", "get_partition", "get_netadapter", "wevtutil_system",
   "wevtutil_app", "dxdiag", "powercfg_query", "bcdedit",
   "wmic_logicaldevice", "wmic_service"]

/-- The ad-hoc USB enumeration command line of `collect_peripherals`. -/
def usbCmd : String :=
  "powershell -Command \"Get-PnpDevice -PresentOnly | Where-Object \x7b $_.InstanceId -like \x27USB*\x27 \x7d | Format-List -Property *\""

/-- The ad-hoc Bluetooth enumeration command line of `collect_peripherals`. -/
def btCmd : String :=
  "powershell -Command \"Get-PnpDevice -PresentOnly | Where-Object \x7b $_.Class -like \x27Bluetooth\x27 \x7d | Format-List -Property *\""

/-- The ad-hoc microcode event query command line of `collect_firmware`. -/
def microcodeCmd : String :=
  "powershell -Command \"Get-WinEvent -FilterHashtable @\x7bLogName=\x27System\x27;Level=3\x7d -MaxEvents 200 | Where-Object \x7b $_.Message -match \x27microcode\x27 \x7d | Format-List -Property TimeCreated,Id,Message\""

/-! ## Parsers -/

/-- `parse_wmic` from main.py: each line containing `=` contributes
`key.strip() = value.strip()` (split on the first `=`); later duplicate
keys overwrite. -/
def parse_wmic (text : String) : List (String × String) :=
  pyDict ((pySplitlines text).filterMap (fun line =>
    if pyIn "=" line then
      some (pyStrip (pySplitOnce "=" line).1, pyStrip (pySplitOnce "=" line).2)
    else none))

/-- The systeminfo dict comprehension of `collect_system`: each line
containing `:` contributes `key.strip(): value.strip()` (split on the
first `:`). -/
def systeminfoParse (text : String) : List (String × String) :=
  pyDict ((pySplitlines text).filterMap (fun line =>
    if pyIn ":" line then
      some (pyStrip (pySplitOnce ":" line).1, pyStrip (pySplitOnce ":" line).2)
    else none))

/-- `safe_read_file` from main.py: the file's contents, or an error marker
string when reading raises. -/
def safe_read_file (res : Except Unit String) (path : String) : String :=
  match res with
  | .ok c => c
  | .error _ => "<error reading " ++ path ++ ">"

/-- The tabular step of `collect_system`:
`[dict(zip(rows[0], row)) for row in rows[1:41]] if rows else []`
applied to the row list produced by the csv library. -/
def processSample (rows : List (List String)) : List (List (String × String)) :=
  match rows with
  | [] => []
  | hdr :: rest => (rest.take 40).map (fun row => pyDict (hdr.zip row))

/-- A raw transcript block: `f"### \x7bname\x7d\n" + out + "\nERR:\n" + err`. -/
def rawBlock (name : String) (r : CommandResult) : String :=
  "### " ++ name ++ "\n" ++ r.out ++ "\nERR:\n" ++ r.err

/-! ## Persistence -/

/-- `write_summary_and_raw`: writes `summary.json` and `raw.txt` under the
domain folder, raising (no try/except in the source) when the location is
unwritable. -/
def write_summary_and_raw (env : Env) (folder : String) : Except String Unit :=
  if env.writeOk folder then .ok () else .error ("cannot write " ++ folder)

/-- `Logger.dump_to_file`: the one persist operation wrapped in try/except,
returning a boolean. -/
def dump_to_file (env : Env) : Bool :=
  env.logWriteOk

/-- `aggregate_results`: writes `result/results_of_all_files.json`, raising
(no try/except in the source) when the location is unwritable. -/
def aggregate_results (env : Env) : Except String Unit :=
  if env.writeOk "result" then .ok () else .error "cannot write results_of_all_files.json"

/-! ## Domain collectors.
Each collector is split into a `*_core` (everything before the final
persistence call; the value of the summary and raw-block list it builds)
and the collector itself, which runs the core and then
`write_summary_and_raw`.  `collected_at` timestamps and the
`time.perf_counter` difference are external inputs (`ts`, `q`). -/

/-- The wevtutil/driverquery/service loop of `collect_system`, threading
the raw-block list and the loop variable `r`. -/
def sysEvtLoop (env : Env) (blocks : List String) (r0 : CommandResult) :
    List String × CommandResult :=
  ["wevtutil_system", "wevtutil_app", "driverquery", "wmic_service"].foldl
    (fun acc cmd =>
      let r := runEnv env (COMMANDS cmd) 40
      (acc.1 ++ [rawBlock cmd r], r))
    (blocks, r0)

/-- `collect_system` before its persistence call. -/
def collect_system_core (env : Env) (ts : String) (q : ℚ) : Summary × List String :=
  let r := runEnv env (COMMANDS "systeminfo") 30
  let blocks := [rawBlock "systeminfo" r]
  let s := setKeyG [("collected_at", Value.str ts)] "systeminfo_parsed"
    (strMapToValue (systeminfoParse r.out))
  let r2 := runEnv env (COMMANDS "tasklist_csv") 30
  let blocks := blocks ++ [rawBlock "tasklist" r2]
  let s :=
    match env.csvReader r2.out with
    | .ok rows =>
        setKeyG s "process_sample"
          (Value.list ((processSample rows).map strMapToValue))
    | .error _ => setKeyG s "process_sample_parse_error" (Value.str "CSV error")
  let st := sysEvtLoop env blocks r2
  let s := setKeyG s "drivers_count"
    (Value.int (if "driverquery" ∈ COMMANDS_keys then
      ((pyCount "Driver Name" st.2.out : Nat) : Int) else 0))
  let s := setKeyG s "services_length"
    (Value.int (if "wmic_service" ∈ COMMANDS_keys then
      ((st.2.out.length : Nat) : Int) else 0))
  (setKeyG s "elapsed_seconds" (Value.num q), st.1)

/-- `collect_system`. -/
def collect_system (env : Env) (ts : String) (q : ℚ) :
    Except String (Summary × List String) :=
  match write_summary_and_raw env "system" with
  | .ok _ => .ok (collect_system_core env ts q)
  | .error e => .error e

/-- The wmic loop of `collect_hardware`, threading the raw blocks, the
summary, and the loop variable `r`. -/
def hwLoop (env : Env) (s0 : Summary) :
    List String × Summary × CommandResult :=
  ["wmic_cpu", "wmic_bios", "wmic_baseboard", "wmic_video"].foldl
    (fun acc cmd =>
      let r := runEnv env (COMMANDS cmd) 20
      (acc.1 ++ [rawBlock cmd r],
       setKeyG acc.2.1 (underscoreSecond cmd) (strMapToValue (parse_wmic r.out)),
       r))
    ([], s0, { rc := 0, out := "", err := "" })

/-- `collect_hardware` before its persistence call.  The psutil metrics
calls are external: the environment supplies the fields the try-block
assigns (`hwMetricsFields`, applied in order) and whether a psutil call
raised partway, in which case `psutil_error` is also set. -/
def collect_hardware_core (env : Env) (ts : String) (q : ℚ) : Summary × List String :=
  let st := hwLoop env [("collected_at", Value.str ts)]
  let s := setKeyG st.2.1 "video_raw_length" (Value.int (st.2.2.out.length : Int))
  let p :=
    if env.psutilAvailable then
      let s2 := env.hwMetricsFields.foldl (fun d kv => setKeyG d kv.1 kv.2) s
      (if env.hwMetricsFailed then setKeyG s2 "psutil_error" (Value.str "Error") else s2,
       st.1)
    else (s, st.1 ++ ["### psutil not available\n"])
  (setKeyG p.1 "elapsed_seconds" (Value.num q), p.2)

/-- `collect_hardware`. -/
def collect_hardware (env : Env) (ts : String) (q : ℚ) :
    Except String (Summary × List String) :=
  match write_summary_and_raw env "hardware" with
  | .ok _ => .ok (collect_hardware_core env ts q)
  | .error e => .error e

/-- Path of the dxdiag side file (`os.path.join(ROOT, "dxdiag_output.txt")`;
the platform path separator is abstracted as `/`). -/
def dx_out_path (env : Env) : String :=
  env.root ++ "/dxdiag_output.txt"

/-- The bcdedit/powercfg loop of `collect_firmware`. -/
def fwLoop (env : Env) (blocks : List String) (r0 : CommandResult) :
    List String × CommandResult :=
  ["bcdedit", "powercfg_query"].foldl
    (fun acc cmd =>
      let r := runEnv env (COMMANDS cmd) 20
      (acc.1 ++ [rawBlock cmd r], r))
    (blocks, r0)

/-- `collect_firmware` on the traces where the unguarded
`os.remove(dx_out)` did not raise, before the persistence call (the
removal's failure path is sequenced in `collect_firmware` itself, via
`removeStaleDx`).  After the successful removal of any stale copy,
`env.dxExists` is the side file's existence once the dxdiag command has
run; the five firmware keys are looked up in `parse_wmic` of the *last*
executed command's stdout (the loop variable `r` holds the microcode event
query's result at that point in the source). -/
def collect_firmware_core (env : Env) (ts : String) (q : ℚ) : Summary × List String :=
  let r0 := runEnv env (COMMANDS "wmic_bios") 15
  let blocks := [rawBlock "wmic bios" r0]
  let st := fwLoop env blocks r0
  let rdx := runEnv env (COMMANDS "dxdiag") 30
  let dxBlock := "### dxdiag\n" ++
    (if env.dxExists then safe_read_file env.dxRead (dx_out_path env)
     else rdx.out ++ "\nERR:\n" ++ rdx.err)
  let blocks := st.1 ++ [dxBlock]
  let rm := runEnv env microcodeCmd 30
  let blocks := blocks ++ [rawBlock "microcode events" rm]
  let parsed := parse_wmic rm.out
  let s := ["Manufacturer", "SMBIOSBIOSVersion", "BIOSVersion", "SerialNumber",
            "ReleaseDate"].foldl
    (fun s k =>
      match lookupG parsed k with
      | some v => setKeyG s k (Value.str v)
      | none => s)
    [("collected_at", Value.str ts)]
  (setKeyG s "elapsed_seconds" (Value.num q), blocks)

/-- `if os.path.exists(dx_out): os.remove(dx_out)` from `collect_firmware`
(main.py:174): with no stale side file it is a no-op; with one present the
unguarded `os.remove` either succeeds or raises an OSError that nothing in
the collector catches. -/
def removeStaleDx (env : Env) : Except String Unit :=
  if env.dxStaleExists then env.dxRemove else .ok ()

/-- `collect_firmware`: a raise from the stale-side-file removal escapes
the collector (aborting before the dxdiag command's block and the write
are observable); otherwise the core value is computed and persisted, a
write failure raising as in the other collectors. -/
def collect_firmware (env : Env) (ts : String) (q : ℚ) :
    Except String (Summary × List String) :=
  match removeStaleDx env with
  | .error e => .error e
  | .ok _ =>
    match write_summary_and_raw env "firmware" with
    | .ok _ => .ok (collect_firmware_core env ts q)
    | .error e => .error e

/-- The smartctl per-device loop of `collect_storage`:
`dev = line.split()[0]` raises IndexError (which nothing in the collector
catches) when a scan line has no whitespace-separated token; otherwise the
health query runs when `dev` is non-empty (Python truthiness). -/
def smartctlLoop (env : Env) : List String → List String → Except String (List String)
  | [], blocks => .ok blocks
  | line :: rest, blocks =>
    match pySplitWs line with
    | [] => .error "list index out of range"
    | dev :: _ =>
      if dev = "" then smartctlLoop env rest blocks
      else
        let r := runEnv env ("smartctl -H " ++ dev) 20
        smartctlLoop env rest (blocks ++ [rawBlock ("smartctl " ++ dev) r])

/-- The disk enumeration loop of `collect_storage`. -/
def storLoop (env : Env) : List String :=
  ["wmic_diskdrive", "get_physicaldisk", "get_partition"].foldl
    (fun acc cmd =>
      let r := runEnv env (COMMANDS cmd) 30
      acc ++ [rawBlock cmd r])
    []

/-- `collect_storage` before its persistence call (the only core that can
itself raise, through the smartctl loop). -/
def collect_storage_core (env : Env) (ts : String) (q : ℚ) :
    Except String (Summary × List String) :=
  let blocks0 := storLoop env
  let blocksE :=
    if env.smartctlPresent then
      let rs := runEnv env "smartctl --scan" 20
      smartctlLoop env (pySplitlines rs.out) (blocks0 ++ [rawBlock "smartctl scan" rs])
    else .ok (blocks0 ++ ["### smartctl not found\n"])
  match blocksE with
  | .error e => .error e
  | .ok blocks =>
    let s : Summary := [("collected_at", Value.str ts)]
    let s :=
      if env.psutilAvailable then
        match env.partitionsSample with
        | .ok v => setKeyG s "partitions_sample" v
        | .error _ => setKeyG s "partitions_error" (Value.str "Error")
      else s
    .ok (setKeyG s "elapsed_seconds" (Value.num q), blocks)

/-- `collect_storage`. -/
def collect_storage (env : Env) (ts : String) (q : ℚ) :
    Except String (Summary × List String) :=
  match collect_storage_core env ts q with
  | .error e => .error e
  | .ok sb =>
    match write_summary_and_raw env "storage" with
    | .ok _ => .ok sb
    | .error e => .error e

/-- The heterogeneous enumeration loop of `collect_peripherals`, threading
the raw blocks and the loop variables `cmd` and `r` (whose end-of-loop
values feed the summary's conditional length fields). -/
def periphLoop (env : Env) (blocks0 : List String) :
    List String × String × CommandResult :=
  ["get_pnp_device", "get_netadapter", "wmic_logicaldevice"].foldl
    (fun acc cmd =>
      let r := runEnv env (COMMANDS cmd) (if pyIn "pnp" cmd then 40 else 30)
      (acc.1 ++ [rawBlock cmd r], cmd, r))
    (blocks0, "", { rc := 0, out := "", err := "" })

/-- `collect_peripherals` before its persistence call. -/
def collect_peripherals_core (env : Env) (ts : String) (q : ℚ) : Summary × List String :=
  let usb := runEnv env usbCmd 40
  let blocks := [rawBlock "USB" usb]
  let st := periphLoop env blocks
  let bt := runEnv env btCmd 20
  let blocks := st.1 ++ [rawBlock "Bluetooth" bt]
  let cmd := st.2.1
  let r := st.2.2
  let s := setKeyG [("collected_at", Value.str ts)] "usb_entries_length"
    (Value.int (usb.out.length : Int))
  let s := setKeyG s "pnp_entries_length"
    (Value.int (if pyIn "pnp" cmd then (r.out.length : Int) else 0))
  let s := setKeyG s "netadapter_entries_length"
    (Value.int (if pyIn "netadapter" cmd then (r.out.length : Int) else 0))
  (setKeyG s "elapsed_seconds" (Value.num q), blocks)

/-- `collect_peripherals`. -/
def collect_peripherals (env : Env) (ts : String) (q : ℚ) :
    Except String (Summary × List String) :=
  match write_summary_and_raw env "peripherals" with
  | .ok _ => .ok (collect_peripherals_core env ts q)
  | .error e => .error e

/-! ## Orchestration and aggregation (`run_module_with_spinner`, `main`) -/

/-- Run metadata supplied by the host: timestamps, the privilege flag, and
the per-domain wall-clock measurements. -/
structure RunParams where
  aggTs : String
  localStart : String
  admin : Bool
  domTs : String → String
  elapsedOf : String → ℚ

/-- The fixed domain sequence of `main`. -/
def modules : List String :=
  ["system", "hardware", "firmware", "storage", "peripherals"]

/-- Dispatch one domain name to its collector (the `modules` pairing in
`main`). -/
def collectorFor (env : Env) (p : RunParams) : String → Except String (Summary × List String)
  | "system" => collect_system env (p.domTs "system") (p.elapsedOf "system")
  | "hardware" => collect_hardware env (p.domTs "hardware") (p.elapsedOf "hardware")
  | "firmware" => collect_firmware env (p.domTs "firmware") (p.elapsedOf "firmware")
  | "storage" => collect_storage env (p.domTs "storage") (p.elapsedOf "storage")
  | "peripherals" => collect_peripherals env (p.domTs "peripherals") (p.elapsedOf "peripherals")
  | _ => .ok ([], [])

/-- `run_module_with_spinner`: the collector's summary on success, the
`\x7berror: str(e)\x7d` placeholder when the collector raised, plus the
status flag. -/
def run_module_with_spinner (res : Except String (Summary × List String)) :
    Summary × Bool :=
  match res with
  | .ok sb => (sb.1, true)
  | .error e => ([("error", Value.str e)], false)

/-- The `summary_map` built by `main` before the total is added: run
metadata, then each domain's entry in order. -/
def buildSummaryMap (env : Env) (p : RunParams) : Summary :=
  modules.foldl
    (fun m name =>
      setKeyG m name (Value.obj (run_module_with_spinner (collectorFor env p name)).1))
    [("collected_at", Value.str p.aggTs), ("local_start", Value.str p.localStart),
     ("admin", Value.bool p.admin)]

/-- `summary_map.get(m, \x7b\x7d).get("elapsed_seconds", 0)` for one domain.
In every reachable state the domain entry is a dict and an
`elapsed_seconds` entry, when present, is numeric; the remaining match arms
are unreachable defaults. -/
def elapsedOfEntry (m : Summary) (name : String) : ℚ :=
  match lookupG m name with
  | some (Value.obj fields) =>
      match lookupG fields "elapsed_seconds" with
      | some (Value.num q) => q
      | _ => 0
  | _ => 0

/-- `total_elapsed = sum(summary_map.get(m, \x7b\x7d).get("elapsed_seconds", 0)
for m, _ in modules)`. -/
def total_elapsed (m : Summary) : ℚ :=
  modules.foldl (fun acc name => acc + elapsedOfEntry m name) 0

/-- The aggregate report: `summary_map` with `total_elapsed_seconds` added. -/
def mainReport (env : Env) (p : RunParams) : Summary :=
  let m := buildSummaryMap env p
  setKeyG m "total_elapsed_seconds" (Value.num (total_elapsed m))

/-- `main` after directory bootstrap: build the report, write the aggregate
(raising aborts the run before the log is flushed), then flush the log,
whose success is the returned boolean. -/
def mainRun (env : Env) (p : RunParams) : Except String (Summary × Bool) :=
  let report := mainReport env p
  match aggregate_results env with
  | .ok _ => .ok (report, dump_to_file env)
  | .error e => .error e

/-! ## Concrete environments for witnesses and counterexamples -/

/-- A host on which every command completes instantly with empty output. -/
def benignExec : String → Nat → ExecOutcome := fun _ _ => .completed 0 "" ""

/-- Baseline benign environment. -/
def envBase : Env :=
  { exec := benignExec
    csvReader := fun _ => .ok []
    dxStaleExists := false
    dxRemove := Except.ok ()
    dxExists := false
    dxRead := Except.error ()
    psutilAvailable := false
    hwMetricsFields := []
    hwMetricsFailed := false
    partitionsSample := Except.error ()
    smartctlPresent := false
    writeOk := fun _ => true
    logWriteOk := true
    root := "." }

/-- Baseline run metadata. -/
def paramsBase : RunParams :=
  { aggTs := "t", localStart := "t", admin := false,
    domTs := fun _ => "t", elapsedOf := fun _ => 0 }

/-! ## Dictionary lemmas -/

/-- Looking up the key just assigned yields the assigned value. -/
theorem lookup_set_self {α : Type} (m : List (String × α)) (k : String) (v : α) :
    lookupG (setKeyG m k v) k = some v := by
  induction m with
  | nil => simp [setKeyG, lookupG]
  | cons p t ih =>
    by_cases h : p.1 = k
    · simp [setKeyG, lookupG, h]
    · simp [setKeyG, lookupG, h, ih]

/-- Assigning one key leaves lookups of other keys unchanged. -/
theorem lookup_set_ne {α : Type} (m : List (String × α)) (k : String) (v : α)
    (j : String) (h : j ≠ k) :
    lookupG (setKeyG m k v) j = lookupG m j := by
  induction m with
  | nil => simp [setKeyG, lookupG, Ne.symm h]
  | cons p t ih =>
    by_cases hp : p.1 = k
    · subst hp
      simp [setKeyG, lookupG, Ne.symm h]
    · by_cases hj : p.1 = j
      · simp [setKeyG, lookupG, hp, hj, h, ih]
      · simp [setKeyG, lookupG, hp, hj, ih]

/-- A dict assignment grows the association list by at most one entry. -/
theorem setKey_length_le {α : Type} (m : List (String × α)) (k : String) (v : α) :
    (setKeyG m k v).length ≤ m.length + 1 := by
  induction m with
  | nil => simp [setKeyG]
  | cons p t ih =>
    by_cases h : p.1 = k
    · simp [setKeyG, h]
    · simp [setKeyG, h]
      omega

/-- Folding dict assignments over a pair list grows the dict by at most the
number of pairs. -/
theorem pyDict_foldl_length {α : Type} (l : List (String × α)) :
    ∀ d : List (String × α),
      (l.foldl (fun d p => setKeyG d p.1 p.2) d).length ≤ d.length + l.length := by
  induction l with
  | nil => intro d; simp
  | cons p t ih =>
    intro d
    have h1 := ih (setKeyG d p.1 p.2)
    have h2 := setKey_length_le d p.1 p.2
    simp only [List.foldl_cons, List.length_cons]
    omega

/-- `dict(pairs)` has at most as many entries as `pairs`. -/
theorem pyDict_length_le {α : Type} (l : List (String × α)) :
    (pyDict l).length ≤ l.length := by
  have := pyDict_foldl_length l []
  simpa [pyDict] using this

/-- Every entry of the dict after an assignment either has the assigned key
or was already present. -/
theorem mem_setKey {α : Type} {m : List (String × α)} {k : String} {v : α}
    {p : String × α} (h : p ∈ setKeyG m k v) : p.1 = k ∨ p ∈ m := by
  induction m with
  | nil =>
    simp [setKeyG] at h
    left
    rw [h]
  | cons q t ih =>
    by_cases hq : q.1 = k
    · simp [setKeyG, hq] at h
      rcases h with h | h
      · left; rw [h]
      · right; exact List.mem_cons_of_mem _ h
    · simp [setKeyG, hq] at h
      rcases h with h | h
      · right; rw [h]; exact List.mem_cons_self _ _
      · rcases ih h with h2 | h2
        · left; exact h2
        · right; exact List.mem_cons_of_mem _ h2

/-- Every entry of a fold of dict assignments comes from the pair list or
the initial dict. -/
theorem mem_foldl_setKey {α : Type} (l : List (String × α)) :
    ∀ d : List (String × α), ∀ p ∈ l.foldl (fun d p => setKeyG d p.1 p.2) d,
      (∃ q ∈ l, p.1 = q.1) ∨ p ∈ d := by
  induction l with
  | nil => intro d p hp; right; simpa using hp
  | cons a t ih =>
    intro d p hp
    simp only [List.foldl_cons] at hp
    rcases ih (setKeyG d a.1 a.2) p hp with h | h
    · rcases h with ⟨q, hq, hpq⟩
      left
      exact ⟨q, List.mem_cons_of_mem _ hq, hpq⟩
    · rcases mem_setKey h with h2 | h2
      · left; exact ⟨a, List.mem_cons_self _ _, h2⟩
      · right; exact h2

/-- Every key of `dict(pairs)` is a key of `pairs`. -/
theorem mem_pyDict {α : Type} {l : List (String × α)} {p : String × α}
    (h : p ∈ pyDict l) : ∃ q ∈ l, p.1 = q.1 := by
  rcases mem_foldl_setKey l [] p h with h2 | h2
  · exact h2
  · simp at h2

/-! ## Collector structure lemmas -/

/-- The last result of the event/driver/service loop is the service
listing's result. -/
theorem sysEvtLoop_last (env : Env) (blocks : List String) (r0 : CommandResult) :
    (sysEvtLoop env blocks r0).2 = runEnv env (COMMANDS "wmic_service") 40 := rfl

/-- A successful `collect_system` returns exactly its core value. -/
theorem collect_system_ok {env : Env} {ts : String} {q : ℚ}
    {out : Summary × List String} (h : collect_system env ts q = .ok out) :
    out = collect_system_core env ts q := by
  unfold collect_system write_summary_and_raw at h
  by_cases hw : env.writeOk "system"
  · simp [hw] at h
    exact h.symm
  · simp [hw] at h

/-- A successful `collect_hardware` returns exactly its core value. -/
theorem collect_hardware_ok {env : Env} {ts : String} {q : ℚ}
    {out : Summary × List String} (h : collect_hardware env ts q = .ok out) :
    out = collect_hardware_core env ts q := by
  unfold collect_hardware write_summary_and_raw at h
  by_cases hw : env.writeOk "hardware"
  · simp [hw] at h
    exact h.symm
  · simp [hw] at h

/-- A successful `collect_firmware` returns exactly its core value. -/
theorem collect_firmware_ok {env : Env} {ts : String} {q : ℚ}
    {out : Summary × List String} (h : collect_firmware env ts q = .ok out) :
    out = collect_firmware_core env ts q := by
  unfold collect_firmware write_summary_and_raw at h
  cases hr : removeStaleDx env with
  | error e => rw [hr] at h; simp at h
  | ok u =>
    rw [hr] at h
    by_cases hw : env.writeOk "firmware"
    · simp [hw] at h
      exact h.symm
    · simp [hw] at h

/-- A successful `collect_storage` returns a successful core value. -/
theorem collect_storage_ok {env : Env} {ts : String} {q : ℚ}
    {out : Summary × List String} (h : collect_storage env ts q = .ok out) :
    collect_storage_core env ts q = .ok out := by
  unfold collect_storage at h
  cases hc : collect_storage_core env ts q with
  | error e => rw [hc] at h; simp at h
  | ok sb =>
    rw [hc] at h
    unfold write_summary_and_raw at h
    by_cases hw : env.writeOk "storage"
    · simp [hw] at h
      rw [h]
    · simp [hw] at h

/-- A successful `collect_peripherals` returns exactly its core value. -/
theorem collect_peripherals_ok {env : Env} {ts : String} {q : ℚ}
    {out : Summary × List String} (h : collect_peripherals env ts q = .ok out) :
    out = collect_peripherals_core env ts q := by
  unfold collect_peripherals write_summary_and_raw at h
  by_cases hw : env.writeOk "peripherals"
  · simp [hw] at h
    exact h.symm
  · simp [hw] at h

/-- The system summary records the measured elapsed time. -/
theorem elapsed_system (env : Env) (ts : String) (q : ℚ) :
    lookupG (collect_system_core env ts q).1 "elapsed_seconds" = some (Value.num q) := by
  simp only [collect_system_core]
  exact lookup_set_self _ _ _

/-- The hardware summary records the measured elapsed time. -/
theorem elapsed_hardware (env : Env) (ts : String) (q : ℚ) :
    lookupG (collect_hardware_core env ts q).1 "elapsed_seconds" = some (Value.num q) := by
  simp only [collect_hardware_core]
  exact lookup_set_self _ _ _

/-- The firmware summary records the measured elapsed time. -/
theorem elapsed_firmware (env : Env) (ts : String) (q : ℚ) :
    lookupG (collect_firmware_core env ts q).1 "elapsed_seconds" = some (Value.num q) := by
  simp only [collect_firmware_core]
  exact lookup_set_self _ _ _

/-- A successful storage summary records the measured elapsed time. -/
theorem elapsed_storage {env : Env} {ts : String} {q : ℚ}
    {out : Summary × List String} (h : collect_storage_core env ts q = .ok out) :
    lookupG out.1 "elapsed_seconds" = some (Value.num q) := by
  unfold collect_storage_core at h
  dsimp only at h
  split at h
  · simp at h
  · simp only [Except.ok.injEq] at h
    rw [← h]
    exact lookup_set_self _ _ _

/-- The peripherals summary records the measured elapsed time. -/
theorem elapsed_peripherals (env : Env) (ts : String) (q : ℚ) :
    lookupG (collect_peripherals_core env ts q).1 "elapsed_seconds" = some (Value.num q) := by
  simp only [collect_peripherals_core]
  exact lookup_set_self _ _ _

/-- If every smartctl scan line has a whitespace-separated token, the
per-device loop completes without raising. -/
theorem smartctlLoop_ok (env : Env) (lines : List String)
    (h : ∀ line ∈ lines, pySplitWs line ≠ []) :
    ∀ blocks : List String, ∃ bs, smartctlLoop env lines blocks = .ok bs := by
  induction lines with
  | nil => intro blocks; exact ⟨blocks, rfl⟩
  | cons line rest ih =>
    intro blocks
    have hline := h line (List.mem_cons_self _ _)
    have hrest : ∀ l ∈ rest, pySplitWs l ≠ [] :=
      fun l hl => h l (List.mem_cons_of_mem _ hl)
    cases hs : pySplitWs line with
    | nil => exact absurd hs hline
    | cons dev devs =>
      by_cases hd : dev = ""
      · rcases ih hrest blocks with ⟨bs, hbs⟩
        exact ⟨bs, by simpa [smartctlLoop, hs, hd] using hbs⟩
      · rcases ih hrest (blocks ++
          [rawBlock ("smartctl " ++ dev) (runEnv env ("smartctl -H " ++ dev) 20)]) with ⟨bs, hbs⟩
        exact ⟨bs, by simpa [smartctlLoop, hs, hd] using hbs⟩

/-! ## Claim C6 -/

/-- C6: for every command line and timeout, the runner on timeout returns
`rc = -1`, preserves any stdout captured before the timeout (empty when
nothing was captured), and sets `err` to a synthetic TIMEOUT message that
contains the original command line; on any other execution failure it
returns `rc = -1`, empty stdout, and `err` equal to the failure
description. -/
theorem c6_runner_failure_shape (cmd : String) (t : Nat) :
    (∀ captured : Option String,
      run cmd t (.timedOut captured) =
        { rc := -1, out := captured.getD "",
          err := "TIMEOUT: " ++ timeoutMessage cmd t } ∧
      ∃ a b : String, (run cmd t (.timedOut captured)).err = a ++ cmd ++ b) ∧
    (∀ msg : String,
      run cmd t (.failed msg) = { rc := -1, out := "", err := msg }) := by
  constructor
  · intro captured
    refine ⟨rfl, "TIMEOUT: " ++ "Command \x27",
      "\x27 timed out after " ++ toString t ++ " seconds", ?_⟩
    simp [run, timeoutMessage, String.append_assoc]
    rw [← String.append_assoc]
    simp
  · intro msg
    rfl

/-! ## Claim C7 -/

/-- The outcome was a runner-level failure (timeout or exception). -/
def isRunnerFailure : ExecOutcome → Prop
  | .completed _ _ _ => False
  | .timedOut _ => True
  | .failed _ => True

/-- C7 counterexample: the claim "rc == -1 holds only when a timeout or a
runner-level exception occurred, and whenever rc == -1 the err field is
non-empty" is false for the code: a process that completes normally with
exit status -1 (possible under POSIX `subprocess` semantics when the shell
is killed by signal 1) is passed through verbatim, giving `rc = -1` from a
non-failure outcome with an empty `err`. -/
theorem c7_counterexample :
    ¬ (∀ (cmd : String) (t : Nat) (o : ExecOutcome),
        (run cmd t o).rc = -1 → isRunnerFailure o ∧ (run cmd t o).err ≠ "") := by
  intro hclaim
  have h := hclaim "systeminfo" 30 (.completed (-1) "partial output" "") rfl
  exact h.1

/-- C7 amended: the timeout and exception branches of the runner always
return `rc = -1`; conversely `rc = -1` arises only from those branches or
from a process that itself completed with exit status -1 (passed through
verbatim).  On timeout `err` is non-empty (the synthetic TIMEOUT message);
on a runner exception `err` is exactly the exception's description (and so
is human-readable exactly when that description is). -/
theorem c7_rc_sentinel (cmd : String) (t : Nat) (o : ExecOutcome) :
    (isRunnerFailure o → (run cmd t o).rc = -1) ∧
    ((run cmd t o).rc = -1 →
      isRunnerFailure o ∨ ∃ s e, o = .completed (-1) s e) ∧
    (∀ captured, (run cmd t (.timedOut captured)).err ≠ "") ∧
    (∀ msg, (run cmd t (.failed msg)).err = msg) := by
  refine ⟨?_, ?_, ?_, ?_⟩
  · intro hf
    cases o with
    | completed rc out err => exact absurd hf (by simp [isRunnerFailure])
    | timedOut captured => rfl
    | failed msg => rfl
  · intro hrc
    cases o with
    | completed rc out err =>
      right
      exact ⟨out, err, by simp [run] at hrc; rw [hrc]⟩
    | timedOut captured => left; trivial
    | failed msg => left; trivial
  · intro captured hEq
    have hlen := congrArg String.length hEq
    simp only [run, String.length_append] at hlen
    have h9 : String.length "TIMEOUT: " = 9 := rfl
    have h0 : String.length "" = 0 := rfl
    rw [h9, h0] at hlen
    omega
  · intro msg
    rfl

/-- C7 amended, witness: at a concrete timeout the sentinel and the
non-empty message are observed. -/
theorem c7_rc_sentinel_witness :
    (run "systeminfo" 30 (.timedOut none)).rc = -1 ∧
    (run "systeminfo" 30 (.timedOut none)).err ≠ "" :=
  ⟨(c7_rc_sentinel "systeminfo" 30 (.timedOut none)).1 trivial,
   (c7_rc_sentinel "systeminfo" 30 (.timedOut none)).2.2.1 none⟩

/-! ## Claim C10 -/

/-- C10: in the system collector both `drivers_count` and `services_length`
are computed from the stdout of the last command of the
event-log/driver/service loop — the service listing: `drivers_count` is the
number of occurrences of "Driver Name" in the service listing's stdout and
`services_length` is that same stdout's length.  (The guards test key
membership in the COMMANDS dictionary, which always holds, and the loop
variable `r` holds the service listing's result after the loop.) -/
theorem c10_drivers_services_from_service_listing (env : Env) (ts : String) (q : ℚ) :
    lookupG (collect_system_core env ts q).1 "drivers_count" =
      some (Value.int ((pyCount "Driver Name"
        (runEnv env (COMMANDS "wmic_service") 40).out : Nat) : Int)) ∧
    lookupG (collect_system_core env ts q).1 "services_length" =
      some (Value.int (((runEnv env (COMMANDS "wmic_service") 40).out.length : Nat) : Int)) := by
  constructor
  · simp only [collect_system_core, sysEvtLoop_last]
    rw [lookup_set_ne _ _ _ _ (by decide), lookup_set_ne _ _ _ _ (by decide),
      lookup_set_self, if_pos (show "driverquery" ∈ COMMANDS_keys by decide)]
  · simp only [collect_system_core, sysEvtLoop_last]
    rw [lookup_set_ne _ _ _ _ (by decide), lookup_set_self,
      if_pos (show "wmic_service" ∈ COMMANDS_keys by decide)]

/-! ## Claim C8 -/

/-- C8: in the firmware collector's raw transcript, the dxdiag block (the
fourth of its five blocks) is the side file's contents when the command
wrote the side file (regardless of what stdout was captured), and falls
back to the captured stdout and stderr when the side file is absent. -/
theorem c8_dxdiag_block (env : Env) (ts : String) (q : ℚ) :
    (env.dxExists = true → ∀ c : String, env.dxRead = .ok c →
      (collect_firmware_core env ts q).2.get? 3 = some ("### dxdiag\n" ++ c)) ∧
    (env.dxExists = false →
      (collect_firmware_core env ts q).2.get? 3 =
        some ("### dxdiag\n" ++ (runEnv env (COMMANDS "dxdiag") 30).out ++ "\nERR:\n" ++
          (runEnv env (COMMANDS "dxdiag") 30).err)) := by
  constructor
  · intro hex c hread
    simp [collect_firmware_core, fwLoop, hex, safe_read_file, hread]
  · intro hex
    simp [collect_firmware_core, fwLoop, hex, String.append_assoc]

/-- C8 witness: a concrete run whose dxdiag command writes the side file
records the side file's contents, not the (empty) captured stdout. -/
def envC8 : Env :=
  { envBase with dxExists := true, dxRead := Except.ok "SIDE FILE CONTENTS" }

/-- C8 witness theorem. -/
theorem c8_dxdiag_block_witness :
    (collect_firmware_core envC8 "t" 0).2.get? 3 =
      some ("### dxdiag\n" ++ "SIDE FILE CONTENTS") :=
  (c8_dxdiag_block envC8 "t" 0).1 rfl "SIDE FILE CONTENTS" rfl

/-! ## Claim C3 -/

/-- A host where the BIOS attribute dump emits a manufacturer line and every
other command (including the microcode event query) emits nothing. -/
def env3 : Env :=
  { envBase with exec := fun c _ =>
      if c = COMMANDS "wmic_bios" then .completed 0 "Manufacturer=Acme\n" ""
      else .completed 0 "" "" }

/-- C3 failing input evaluated: the BIOS attribute dump's stdout parses to
`Manufacturer = Acme`, yet the firmware summary does not contain the
`Manufacturer` key, because the source looks the five firmware keys up in
the parse of the *microcode event query's* stdout (the loop variable `r`
was rebound three times after the BIOS dump), which is empty here. -/
theorem c3_firmware_keys_from_wrong_command :
    lookupG (parse_wmic (runEnv env3 (COMMANDS "wmic_bios") 15).out) "Manufacturer" =
      some "Acme" ∧
    lookupG (collect_firmware_core env3 "t" 0).1 "Manufacturer" = none := by
  exact ⟨rfl, rfl⟩

/-! ## Claim C4 -/

/-- A host where the PnP enumeration prints 3 characters, the network
adapter enumeration prints 5, the USB enumeration prints 6, and everything
else prints nothing. -/
def env4 : Env :=
  { envBase with exec := fun c _ =>
      if c = COMMANDS "get_pnp_device" then .completed 0 "abc" ""
      else if c = COMMANDS "get_netadapter" then .completed 0 "hello" ""
      else if c = usbCmd then .completed 0 "usbout" ""
      else .completed 0 "" "" }

/-- C4 failing input evaluated: `usb_entries_length` does equal the USB
command's own stdout length (6), but `pnp_entries_length` and
`netadapter_entries_length` are 0 rather than 3 and 5: after the loop the
variable `cmd` is "wmic_logicaldevice", which contains neither "pnp" nor
"netadapter", so both guards take their 0 branch. -/
theorem c4_entry_lengths_are_zero :
    (runEnv env4 (COMMANDS "get_pnp_device") 40).out.length = 3 ∧
    lookupG (collect_peripherals_core env4 "t" 0).1 "pnp_entries_length" =
      some (Value.int 0) ∧
    (runEnv env4 (COMMANDS "get_netadapter") 30).out.length = 5 ∧
    lookupG (collect_peripherals_core env4 "t" 0).1 "netadapter_entries_length" =
      some (Value.int 0) ∧
    lookupG (collect_peripherals_core env4 "t" 0).1 "usb_entries_length" =
      some (Value.int 6) := by
  exact ⟨rfl, rfl, rfl, rfl, rfl⟩

/-! ## Claim C5 -/

/-- C5 counterexample: with a header row and 41 data rows the tabular step
produces 40 mappings, not 41 — `rows[1:41]` caps the process sample at the
first 40 data rows. -/
theorem c5_counterexample :
    (processSample (["Image Name", "PID"] :: List.replicate 41 ["x", "1"])).length ≠
      (List.replicate 41 (["x", "1"] : List String)).length := by
  decide

/-- C5 amended: for a header row and `n` data rows the tabular step
produces exactly `min n 40` mappings, each obtained by zipping its row
positionally against the header (truncating at the shorter of the two, so
ragged rows never raise) and converting to a dict; every key of every
mapping is a header field; and when the csv library raises, the summary
carries the explicit `process_sample_parse_error` marker instead of a
`process_sample` field. -/
theorem c5_tabular (hdr : List String) (rows : List (List String)) :
    (processSample (hdr :: rows)).length = min rows.length 40 ∧
    processSample (hdr :: rows) = (rows.take 40).map (fun row => pyDict (hdr.zip row)) ∧
    (∀ row : List String, (pyDict (hdr.zip row)).length ≤ min hdr.length row.length) ∧
    (∀ row : List String, ∀ p ∈ pyDict (hdr.zip row), p.1 ∈ hdr) ∧
    (∀ (env : Env) (ts : String) (q : ℚ),
      env.csvReader (runEnv env (COMMANDS "tasklist_csv") 30).out = .error () →
      lookupG (collect_system_core env ts q).1 "process_sample_parse_error" =
        some (Value.str "CSV error") ∧
      lookupG (collect_system_core env ts q).1 "process_sample" = none) := by
  refine ⟨?_, rfl, ?_, ?_, ?_⟩
  · simp [processSample, List.length_take, Nat.min_comm]
  · intro row
    calc (pyDict (hdr.zip row)).length ≤ (hdr.zip row).length := pyDict_length_le _
    _ = min hdr.length row.length := List.length_zip _ _
  · intro row p hp
    rcases mem_pyDict hp with ⟨q2, hq2, hpq⟩
    rw [hpq]
    exact (List.of_mem_zip hq2).1
  · intro env ts q hcsv
    constructor
    · simp only [collect_system_core, hcsv]
      rw [lookup_set_ne _ _ _ _ (by decide), lookup_set_ne _ _ _ _ (by decide),
        lookup_set_ne _ _ _ _ (by decide), lookup_set_self]
    · simp only [collect_system_core, hcsv]
      rw [lookup_set_ne _ _ _ _ (by decide), lookup_set_ne _ _ _ _ (by decide),
        lookup_set_ne _ _ _ _ (by decide), lookup_set_ne _ _ _ _ (by decide)]
      rfl

/-- Environment whose csv library raises on every input. -/
def envC5 : Env := { envBase with csvReader := fun _ => .error () }

/-- C5 witness: with a raising csv library the parse-error marker is set
and no process sample is present. -/
theorem c5_tabular_witness :
    lookupG (collect_system_core envC5 "t" 0).1 "process_sample_parse_error" =
      some (Value.str "CSV error") ∧
    lookupG (collect_system_core envC5 "t" 0).1 "process_sample" = none :=
  (c5_tabular [] []).2.2.2.2 envC5 "t" 0 rfl

/-! ## Claim C1 -/

/-- A host with smartctl present whose scan output is a single newline:
its one (empty) line has no whitespace-separated token. -/
def envC1 : Env :=
  { envBase with
    smartctlPresent := true
    exec := fun c _ =>
      if c = "smartctl --scan" then .completed 0 "\n" "" else .completed 0 "" "" }

/-- A host with a stale `dxdiag_output.txt` that cannot be removed (for
example still held open by a previous run's abandoned dxdiag process). -/
def envC1b : Env :=
  { envBase with
    dxStaleExists := true
    dxRemove := Except.error "[Errno 13] Permission denied: \x27dxdiag_output.txt\x27" }

/-- C1 counterexample: collectors do not complete on every behaviour of
the external commands and collaborators.  Storage: with smartctl present
and a scan output line containing no token, `line.split()[0]` raises
IndexError, which nothing inside `collect_storage` catches.  Firmware:
with a stale side file whose unguarded `os.remove` raises, the OSError
escapes `collect_firmware`.  Both exceptions cross the collect() boundary
and are caught only by the orchestrator's `run_module_with_spinner`. -/
theorem c1_counterexample :
    collect_storage envC1 "t" 0 = .error "list index out of range" ∧
    collect_firmware envC1b "t" 0 =
      .error "[Errno 13] Permission denied: \x27dxdiag_output.txt\x27" := by
  exact ⟨rfl, rfl⟩

/-- C1 amended: the system, hardware and peripherals collectors always
complete and return a summary for every behaviour of the external commands
and collaborators (given a writable artifact location, persistence being
outside this claim's scope).  The firmware collector completes as long as
the unguarded removal of a stale `dxdiag_output.txt` does not raise — a
failing `os.remove` makes an OSError escape `collect_firmware`.  The
storage collector completes as long as every line of the smartctl scan
output contains at least one whitespace-separated token — a token-less
line makes an IndexError escape `collect_storage`. -/
theorem c1_collectors_total (env : Env) (ts : String) (q : ℚ) :
    (env.writeOk "system" = true → ∃ out, collect_system env ts q = .ok out) ∧
    (env.writeOk "hardware" = true → ∃ out, collect_hardware env ts q = .ok out) ∧
    (env.writeOk "firmware" = true → removeStaleDx env = .ok () →
      ∃ out, collect_firmware env ts q = .ok out) ∧
    (env.writeOk "peripherals" = true → ∃ out, collect_peripherals env ts q = .ok out) ∧
    (env.writeOk "storage" = true →
      (∀ line ∈ pySplitlines (runEnv env "smartctl --scan" 20).out, pySplitWs line ≠ []) →
      ∃ out, collect_storage env ts q = .ok out) := by
  refine ⟨?_, ?_, ?_, ?_, ?_⟩
  · intro hw
    refine ⟨collect_system_core env ts q, ?_⟩
    simp [collect_system, write_summary_and_raw, hw]
  · intro hw
    refine ⟨collect_hardware_core env ts q, ?_⟩
    simp [collect_hardware, write_summary_and_raw, hw]
  · intro hw hrm
    refine ⟨collect_firmware_core env ts q, ?_⟩
    simp [collect_firmware, write_summary_and_raw, hw, hrm]
  · intro hw
    refine ⟨collect_peripherals_core env ts q, ?_⟩
    simp [collect_peripherals, write_summary_and_raw, hw]
  · intro hw hlines
    rcases smartctlLoop_ok env (pySplitlines (runEnv env "smartctl --scan" 20).out) hlines
      (storLoop env ++ [rawBlock "smartctl scan" (runEnv env "smartctl --scan" 20)]) with ⟨bs, hbs⟩
    have hcore : ∃ sb, collect_storage_core env ts q = .ok sb := by
      unfold collect_storage_core
      by_cases hp : env.smartctlPresent = true
      · simp only [hp, if_true, hbs]
        exact ⟨_, rfl⟩
      · simp only [hp, if_false, Bool.false_eq_true]
        exact ⟨_, rfl⟩
    rcases hcore with ⟨sb, hsb⟩
    refine ⟨sb, ?_⟩
    simp [collect_storage, hsb, write_summary_and_raw, hw]

/-- C1 witness: on the baseline host (no stale side file, smartctl absent,
everything writable) the collectors complete. -/
theorem c1_collectors_total_witness :
    (∃ out, collect_system envBase "t" 0 = .ok out) ∧
    (∃ out, collect_firmware envBase "t" 0 = .ok out) ∧
    (∃ out, collect_storage envBase "t" 0 = .ok out) :=
  ⟨(c1_collectors_total envBase "t" 0).1 rfl,
   (c1_collectors_total envBase "t" 0).2.2.1 rfl rfl,
   (c1_collectors_total envBase "t" 0).2.2.2.2 rfl (by simp [envBase, benignExec, runEnv, run, pySplitlines, splitlinesAux])⟩

/-! ## Claim C2 -/

/-- The contribution one collector outcome should make to the total: the
measured elapsed time on success, zero on a raised exception. -/
def elapsedExpected (res : Except String (Summary × List String)) (q : ℚ) : ℚ :=
  match res with
  | .ok _ => q
  | .error _ => 0

/-- If a domain's entry in the summary map is the orchestrator's wrapping of
a collector result whose success case carries `elapsed_seconds = q`, then
the aggregator reads `q` from a successful entry and `0` from an error
placeholder (which has no `elapsed_seconds` key). -/
theorem elapsedOfEntry_of_lookup {m : Summary} {name : String}
    (res : Except String (Summary × List String)) (q : ℚ)
    (hlk : lookupG m name = some (Value.obj (run_module_with_spinner res).1))
    (hok : ∀ out, res = .ok out → lookupG out.1 "elapsed_seconds" = some (Value.num q)) :
    elapsedOfEntry m name = elapsedExpected res q := by
  simp only [elapsedOfEntry, hlk]
  cases res with
  | ok out =>
    simp only [run_module_with_spinner, elapsedExpected]
    rw [hok out rfl]
  | error e =>
    simp only [run_module_with_spinner, elapsedExpected]
    rfl

/-- C2: the aggregate report's `total_elapsed_seconds` is computed by the
aggregator as the sum, over the five domain entries of the summary map, of
each entry's `elapsed_seconds` (an entry without the field — in particular
an error placeholder — contributing zero); and each domain entry's
contribution is exactly the measured elapsed time when its collector
returned, and zero when its collector raised. -/
theorem c2_total_elapsed (env : Env) (p : RunParams) :
    lookupG (mainReport env p) "total_elapsed_seconds" =
      some (Value.num (modules.foldl
        (fun acc name => acc + elapsedOfEntry (buildSummaryMap env p) name) 0)) ∧
    elapsedOfEntry (buildSummaryMap env p) "system" =
      elapsedExpected (collectorFor env p "system") (p.elapsedOf "system") ∧
    elapsedOfEntry (buildSummaryMap env p) "hardware" =
      elapsedExpected (collectorFor env p "hardware") (p.elapsedOf "hardware") ∧
    elapsedOfEntry (buildSummaryMap env p) "firmware" =
      elapsedExpected (collectorFor env p "firmware") (p.elapsedOf "firmware") ∧
    elapsedOfEntry (buildSummaryMap env p) "storage" =
      elapsedExpected (collectorFor env p "storage") (p.elapsedOf "storage") ∧
    elapsedOfEntry (buildSummaryMap env p) "peripherals" =
      elapsedExpected (collectorFor env p "peripherals") (p.elapsedOf "peripherals") := by
  refine ⟨?_, ?_, ?_, ?_, ?_, ?_⟩
  · simp only [mainReport]
    exact lookup_set_self _ _ _
  · refine elapsedOfEntry_of_lookup (collectorFor env p "system") (p.elapsedOf "system") ?_ ?_
    · rfl
    · intro out h
      rw [collect_system_ok h]
      exact elapsed_system env (p.domTs "system") (p.elapsedOf "system")
  · refine elapsedOfEntry_of_lookup (collectorFor env p "hardware") (p.elapsedOf "hardware") ?_ ?_
    · rfl
    · intro out h
      rw [collect_hardware_ok h]
      exact elapsed_hardware env (p.domTs "hardware") (p.elapsedOf "hardware")
  · refine elapsedOfEntry_of_lookup (collectorFor env p "firmware") (p.elapsedOf "firmware") ?_ ?_
    · rfl
    · intro out h
      rw [collect_firmware_ok h]
      exact elapsed_firmware env (p.domTs "firmware") (p.elapsedOf "firmware")
  · refine elapsedOfEntry_of_lookup (collectorFor env p "storage") (p.elapsedOf "storage") ?_ ?_
    · rfl
    · intro out h
      exact elapsed_storage (collect_storage_ok h)
  · refine elapsedOfEntry_of_lookup (collectorFor env p "peripherals") (p.elapsedOf "peripherals") ?_ ?_
    · rfl
    · intro out h
      rw [collect_peripherals_ok h]
      exact elapsed_peripherals env (p.domTs "peripherals") (p.elapsedOf "peripherals")

/-! ## Claim C9 -/

/-- A host on which only the aggregate's artifact location is unwritable. -/
def envC9 : Env :=
  { envBase with writeOk := fun f => !(f == "result") }

/-- C9 counterexample: a single artifact-write failure does abort the run,
and not through a returned boolean: when the aggregate's location is
unwritable, `aggregate_results` raises (the source has no try/except around
its file write) and `main` terminates with that exception — the log is
never flushed. -/
theorem c9_counterexample :
    mainRun envC9 paramsBase = .error "cannot write results_of_all_files.json" := by
  rfl

/-- C9 amended: only the log flush surfaces persistence failure as a
returned boolean.  A domain's artifact-write failure raises out of the
collector (here: out of `collect_system`) — the orchestrator's catch, not a
returned result, is what keeps the run going.  An aggregate-write failure
raises out of `aggregate_results` and aborts the run; when the aggregate
location is writable the run completes and flushes the log, reporting the
flush's boolean outcome. -/
theorem c9_persistence (env : Env) (p : RunParams) :
    (dump_to_file env = env.logWriteOk) ∧
    (env.writeOk "system" = false →
      collect_system env (p.domTs "system") (p.elapsedOf "system") =
        .error "cannot write system") ∧
    (env.writeOk "result" = true →
      mainRun env p = .ok (mainReport env p, env.logWriteOk)) ∧
    (env.writeOk "result" = false →
      mainRun env p = .error "cannot write results_of_all_files.json") := by
  refine ⟨rfl, ?_, ?_, ?_⟩
  · intro hw
    simp [collect_system, write_summary_and_raw, hw]
  · intro hw
    simp [mainRun, aggregate_results, dump_to_file, hw]
  · intro hw
    simp [mainRun, aggregate_results, hw]

/-- A host on which only the system domain's artifact location is
unwritable. -/
def envC9b : Env :=
  { envBase with writeOk := fun f => !(f == "system") }

/-- C9 amended, witness: with the system folder unwritable the system
collector raises, yet the run still completes and flushes the log. -/
theorem c9_persistence_witness :
    collect_system envC9b "t" 0 = .error "cannot write system" ∧
    mainRun envC9b paramsBase = .ok (mainReport envC9b paramsBase, true) :=
  ⟨(c9_persistence envC9b paramsBase).2.1 rfl,
   (c9_persistence envC9b paramsBase).2.2.1 rfl⟩
